import Mathlib

/-!
Shallow embedding of the tile placement engine of `bevy_tileset_map`
(`src/placement.rs`), together with models of the external collaborators it
uses (the spatial tile store of `bevy_ecs_tilemap` and the tileset registry of
`bevy_tileset`), which the specification treats as fixed external interfaces.

Modelling conventions:
* Entities are natural numbers allocated from a counter; the world state holds
  the component table of live tile entities (`tiles`), the chunk index mapping
  a coordinate to its tile entity (`grid`), and the queue of emitted
  `RemoveAutoTileEvent`s.
* Command effects are modelled as applied immediately (the flushed-between-calls
  semantics the specification assumes); the one place where deferral is
  observable (`apply_auto_tile` reading auto-tile components it has just queued
  for removal) is modelled with the deferred reading order.
* The `auto-tile` cargo feature is modelled as a boolean capability flag
  `cfgAuto`, following the specification's "optional capability" modelling note.
* Machine integer casts that can truncate are modelled explicitly:
  `as u16` is `% 65536` and `as u32` is `% 4294967296`.
-/

namespace BevyTilesetMap

/-- TilePos of bevy_ecs_tilemap: a 2D tile position. -/
abbrev TilePos := Nat × Nat

/-- TileId of bevy_tileset: `{ tileset_id, group_id, variant-selector }`. -/
structure TileId where
  tileset_id : Nat
  group_id : Nat
  variant_index : Nat
deriving DecidableEq, Repr

/-- eq_tile_group of bevy_tileset: same tileset and same group, ignoring the
variant selector. -/
def TileId.eq_tile_group (a b : TileId) : Bool :=
  a.tileset_id == b.tileset_id && a.group_id == b.group_id

/-- TileIndex of bevy_tileset: resolved render data, either a single static
texture index or an animation range (start, end, speed).  The playback speed is
an opaque value that is only carried around, never computed with. -/
inductive TileIndex where
  | Standard (index : Nat)
  | Animated (start stop : Nat) (speed : Nat)
deriving DecidableEq, Repr

/-- base_index of bevy_tileset's TileIndex: the static index, or the start
index of an animation. -/
def TileIndex.base_index : TileIndex → Nat
  | .Standard index => index
  | .Animated start _ _ => start

/-- TileData of bevy_tileset, restricted to the one field the placement engine
reads: the auto-tile flag. -/
structure TileData where
  is_auto : Bool
deriving DecidableEq, Repr

/-- A registered tileset: its id, forward resolution of a TileId to render
data, and best-effort reverse resolution of a texture index to a TileId. -/
structure Tileset where
  id : Nat
  select_tile_by_id : TileId → Option (TileIndex × TileData)
  get_tile_id : Nat → Option TileId

/-- The tileset registry (`Tilesets` system param): lookup by tileset id. -/
def Tilesets := Nat → Option Tileset

/-- get_by_id of the tileset registry. -/
def get_by_id (ts : Tilesets) (id : Nat) : Option Tileset := ts id

/-- AutoTileId of bevy_tileset::auto: the auto-tile link component. -/
structure AutoTileId where
  group_id : Nat
  tileset_id : Nat
deriving DecidableEq, Repr

/-- TileParent of bevy_ecs_tilemap, restricted to the fields the engine
forwards (the chunk entity is not modelled). -/
structure TileParent where
  map_id : Nat
  layer_id : Nat
deriving DecidableEq, Repr

/-- TileCoord of src/coord.rs: a tile position qualified by map and layer. -/
structure TileCoord where
  pos : TilePos
  map_id : Nat
  layer_id : Nat
deriving DecidableEq, Repr

/-- Modelled from the spec: RemoveAutoTileEvent of the crate's feature-gated
auto module (not present under src/): `{ entity, position, parent, auto_id }`. -/
structure RemoveAutoTileEvent where
  entity : Nat
  pos : TilePos
  parent : TileParent
  auto_id : AutoTileId
deriving DecidableEq, Repr

/-- The component record of one live tile entity: its TilePos and TileParent
components, the Tile component's texture index, and the optional GPUAnimated,
TilesetParent and AutoTileId components. -/
structure TileRec where
  pos : TilePos
  map_id : Nat
  layer_id : Nat
  texture_index : Nat
  animated : Option (Nat × Nat × Nat)
  tileset_parent : Option Nat
  auto : Option AutoTileId
deriving DecidableEq, Repr

/-- The coordinate a live tile entity occupies. -/
def coordOf (r : TileRec) : TileCoord := ⟨r.pos, r.map_id, r.layer_id⟩

/-- The world as the placement engine observes it: the entity allocator, the
component table of live tile entities, the chunk index from coordinates to
tile entities, and the emitted auto-tile removal events. -/
structure WorldState where
  nextEntity : Nat
  tiles : Nat → Option TileRec
  grid : TileCoord → Option Nat
  events : List RemoveAutoTileEvent

/-- The world with no tiles, no events, and a fresh allocator. -/
def emptyWorld : WorldState :=
  { nextEntity := 0, tiles := fun _ => none, grid := fun _ => none, events := [] }

/-- MapTileError of bevy_ecs_tilemap. -/
inductive MapTileError where
  | OutOfBounds
  | AlreadyExists
  | NonExistent
deriving DecidableEq, Repr

/-- TilePlacementError of src/placement.rs. -/
inductive TilePlacementError where
  | TileAlreadyExists (new : TileId) (existing : Option TileId) (pos : TilePos)
  | InvalidTileset (id : Nat)
  | InvalidTile (id : TileId)
  | MapError (e : MapTileError)
deriving DecidableEq, Repr

/-- PlacedTile of src/placement.rs. -/
inductive PlacedTile where
  | Added (old_tile : Option (Nat × Option TileId)) (new_tile : Nat × TileId)
  | Removed (old_tile : Option (Nat × Option TileId))
deriving DecidableEq, Repr

/-- Commands on an entity: update its components (no-op on a dead entity).
Component writes never change the entity's TilePos/TileParent fields. -/
def modifyTile (s : WorldState) (e : Nat) (f : TileRec → TileRec) : WorldState :=
  { s with tiles := fun e2 => if e2 = e then (s.tiles e2).map f else s.tiles e2 }

/-- Modelled from the spec: the store's `getEntityAt` (MapQuery::get_tile_entity).
Returns the tile entity at the coordinate; an empty coordinate has no entity to
return, so it fails. -/
def get_tile_entity (s : WorldState) (c : TileCoord) : Except MapTileError Nat :=
  match s.grid c with
  | some e => .ok e
  | none => .error .NonExistent

/-- Modelled from the spec: the store's `despawnTile` (MapQuery::despawn_tile).
Deletes the tile entity at the coordinate and clears the chunk index slot;
per the spec's removal protocol an empty slot is a no-op success. -/
def despawn_tile (s : WorldState) (c : TileCoord) :
    Except MapTileError Unit × WorldState :=
  match s.grid c with
  | some e =>
      (.ok (), { s with
        tiles := fun e2 => if e2 = e then none else s.tiles e2,
        grid := fun c2 => if c2 = c then none else s.grid c2 })
  | none => (.ok (), s)

/-- Modelled from the spec: the store's `setTile` (MapQuery::set_tile).  Writes
the Tile component at the coordinate: onto the existing entity when the slot is
occupied, otherwise onto a freshly spawned entity that is indexed into the
chunk slot.  The repository only ever calls it after clearing the slot. -/
def set_tile (s : WorldState) (c : TileCoord) (texture : Nat) :
    Except MapTileError Nat × WorldState :=
  match s.grid c with
  | some e => (.ok e, modifyTile s e (fun r => { r with texture_index := texture }))
  | none =>
      let e := s.nextEntity
      (.ok e, { s with
        nextEntity := e + 1,
        tiles := fun e2 =>
          if e2 = e then some ⟨c.pos, c.map_id, c.layer_id, texture, none, none, none⟩
          else s.tiles e2,
        grid := fun c2 => if c2 = c then some e else s.grid c2 })

/-- get_tileset of src/placement.rs: registry lookup by the identity's
tileset id, failing with InvalidTileset when unregistered. -/
def get_tileset (ts : Tilesets) (tile_id : TileId) :
    Except TilePlacementError Tileset :=
  match get_by_id ts tile_id.tileset_id with
  | some tileset => .ok tileset
  | none => .error (.InvalidTileset tile_id.tileset_id)

/-- get_tileset_id of src/placement.rs: the id of the resolved tileset. -/
def get_tileset_id (ts : Tilesets) (tile_id : TileId) :
    Except TilePlacementError Nat :=
  match get_tileset ts tile_id with
  | .ok tileset => .ok tileset.id
  | .error e => .error e

/-- get_tile_index of src/placement.rs: forward resolution of the identity to
its TileIndex, failing with InvalidTile when it does not resolve. -/
def get_tile_index (ts : Tilesets) (tile_id : TileId) :
    Except TilePlacementError TileIndex :=
  match get_tileset ts tile_id with
  | .error e => .error e
  | .ok tileset =>
      match tileset.select_tile_by_id tile_id with
      | some (tile_index, _) => .ok tile_index
      | none => .error (.InvalidTile tile_id)

/-- get_tile_data of src/placement.rs: forward resolution of the identity to
its TileData. -/
def get_tile_data (ts : Tilesets) (tile_id : TileId) :
    Except TilePlacementError TileData :=
  match get_tileset ts tile_id with
  | .error e => .error e
  | .ok tileset =>
      match tileset.select_tile_by_id tile_id with
      | some (_, tile_data) => .ok tile_data
      | none => .error (.InvalidTile tile_id)

/-- ExistingTile of src/placement.rs: the occupancy snapshot. -/
structure ExistingTile where
  entity : Nat
  id : Option TileId
  texture_index : Nat
  is_animated : Bool
  is_auto : Bool
deriving DecidableEq, Repr

/-- get_existing of src/placement.rs: look up the entity at the coordinate,
read its components, then best-effort reverse-resolve its identity in the new
identity's tileset (an unregistered tileset leaves the identity as none). -/
def get_existing (ts : Tilesets) (tile_id : TileId) (c : TileCoord)
    (s : WorldState) : Option ExistingTile :=
  let tile : Option ExistingTile :=
    match s.grid c with
    | some entity =>
        match s.tiles entity with
        | some r => some ⟨entity, none, r.texture_index, r.animated.isSome, r.auto.isSome⟩
        | none => none
    | none => none
  match tile with
  | some t =>
      match get_by_id ts tile_id.tileset_id with
      | some tileset => some { t with id := tileset.get_tile_id t.texture_index }
      | none => some t
  | none => none

/-- try_remove_auto_tile of src/placement.rs: read the entity's TilePos,
TileParent and AutoTileId components; if all are present, emit one
RemoveAutoTileEvent built from them and report true, otherwise report false
with no event. -/
def try_remove_auto_tile (s : WorldState) (entity : Nat) : Bool × WorldState :=
  match s.tiles entity with
  | some r =>
      match r.auto with
      | some auto =>
          (true, { s with
            events := s.events ++ [⟨entity, r.pos, ⟨r.map_id, r.layer_id⟩, auto⟩] })
      | none => (false, s)
  | none => (false, s)

/-- remove of src/placement.rs.  With the auto-tile capability present it first
looks up the tile entity (propagating the lookup failure as MapError) and runs
auto-tile detachment against it, then despawns the tile.  The chunk dirtying
notification has no modelled observable effect. -/
def remove (cfgAuto : Bool) (s : WorldState) (c : TileCoord) :
    Except TilePlacementError Unit × WorldState :=
  let step1 : Except TilePlacementError Unit × WorldState :=
    if cfgAuto then
      match get_tile_entity s c with
      | .ok entity => (.ok (), (try_remove_auto_tile s entity).2)
      | .error e => (.error (.MapError e), s)
    else (.ok (), s)
  match step1 with
  | (.error e, s1) => (.error e, s1)
  | (.ok _, s1) =>
      match despawn_tile s1 c with
      | (.ok _, s2) => (.ok (), s2)
      | (.error e, s2) => (.error (.MapError e), s2)

/-- The is_auto resolution at the top of apply_auto_tile in src/placement.rs:
resolve TileData for the identity, defaulting to false on failure. -/
def tile_is_auto (ts : Tilesets) (id : TileId) : Bool :=
  match get_tile_data ts id with
  | .ok tile_data => tile_data.is_auto
  | .error _ => false

/-- apply_auto_tile of src/placement.rs: if the identity's TileData is auto,
attach the AutoTileId link; otherwise remove any link and run detachment
notification.  The component removal goes through deferred commands in the
source, so the notification reads the pre-removal components. -/
def apply_auto_tile (ts : Tilesets) (id : TileId) (tileset_id : Nat)
    (entity : Nat) (s : WorldState) : WorldState :=
  let is_auto : Bool := tile_is_auto ts id
  if is_auto then
    modifyTile s entity (fun r => { r with auto := some ⟨id.group_id, tileset_id⟩ })
  else
    let s1 := (try_remove_auto_tile s entity).2
    modifyTile s1 entity (fun r => { r with auto := none })

/-- The index-specific step of place_unchecked: a Standard index removes any
GPUAnimated component, an Animated index attaches one built from
(start, end, speed) with the u32 casts of the source. -/
def apply_index (tile_index : TileIndex) (entity : Nat) (s : WorldState) : WorldState :=
  match tile_index with
  | .Standard _ => modifyTile s entity (fun r => { r with animated := none })
  | .Animated start stop speed =>
      modifyTile s entity
        (fun r => { r with animated := some (start % 4294967296, stop % 4294967296, speed) })

/-- The straight-line installation tail of place_unchecked, after the occupant
(if any) has been displaced: write the Tile with the base index (as u16),
attach or clear GPUAnimated per the index shape, tag the TilesetParent, run
auto-tile synchronization under the capability, and report Added. -/
def place_install (ts : Tilesets) (cfgAuto : Bool) (id : TileId) (c : TileCoord)
    (tileset_id : Nat) (tile_index : TileIndex)
    (old_tile : Option (Nat × Option TileId)) (s : WorldState) :
    Except TilePlacementError PlacedTile × WorldState :=
  let index := tile_index.base_index
  match set_tile s c (index % 65536) with
  | (.error e, s2) => (.error (.MapError e), s2)
  | (.ok entity, s2) =>
      let s3 := apply_index tile_index entity s2
      let s4 := modifyTile s3 entity (fun r => { r with tileset_parent := some tileset_id })
      let s5 := if cfgAuto then apply_auto_tile ts id tileset_id entity s4 else s4
      (.ok (.Added old_tile (entity, id)), s5)

/-- place_unchecked of src/placement.rs: resolve tileset and index, displace
the occupant (if any) through the full removal protocol, then install. -/
def place_unchecked (ts : Tilesets) (cfgAuto : Bool) (id : TileId)
    (c : TileCoord) (s : WorldState) :
    Except TilePlacementError PlacedTile × WorldState :=
  match get_tileset_id ts id with
  | .error e => (.error e, s)
  | .ok tileset_id =>
      match get_tile_index ts id with
      | .error e => (.error e, s)
      | .ok tile_index =>
          match get_existing ts id c s with
          | some existing =>
              match remove cfgAuto s c with
              | (.error e, s1) => (.error e, s1)
              | (.ok _, s1) =>
                  place_install ts cfgAuto id c tileset_id tile_index
                    (some (existing.entity, existing.id)) s1
          | none => place_install ts cfgAuto id c tileset_id tile_index none s

/-- place of src/placement.rs: unconditional placement. -/
def place (ts : Tilesets) (cfgAuto : Bool) (id : TileId) (c : TileCoord)
    (s : WorldState) : Except TilePlacementError PlacedTile × WorldState :=
  place_unchecked ts cfgAuto id c s

/-- try_place of src/placement.rs: fail with TileAlreadyExists when the
coordinate is occupied by anything, otherwise install. -/
def try_place (ts : Tilesets) (cfgAuto : Bool) (id : TileId) (c : TileCoord)
    (s : WorldState) : Except TilePlacementError PlacedTile × WorldState :=
  match get_existing ts id c s with
  | some existing => (.error (.TileAlreadyExists id existing.id c.pos), s)
  | none => place_unchecked ts cfgAuto id c s

/-- replace of src/placement.rs: fail with TileAlreadyExists when the occupant
reverse-resolves to a group-equal identity, otherwise install (displacing any
occupant). -/
def replace (ts : Tilesets) (cfgAuto : Bool) (id : TileId) (c : TileCoord)
    (s : WorldState) : Except TilePlacementError PlacedTile × WorldState :=
  match get_existing ts id c s with
  | some existing =>
      match existing.id with
      | some existing_id =>
          if existing_id.eq_tile_group id then
            (.error (.TileAlreadyExists id existing.id c.pos), s)
          else place_unchecked ts cfgAuto id c s
      | none => place_unchecked ts cfgAuto id c s
  | none => place_unchecked ts cfgAuto id c s

/-- toggle_matching of src/placement.rs: remove a group-equal occupant, fail
with TileAlreadyExists on any other occupant, install on an empty slot. -/
def toggle_matching (ts : Tilesets) (cfgAuto : Bool) (id : TileId)
    (c : TileCoord) (s : WorldState) :
    Except TilePlacementError PlacedTile × WorldState :=
  match get_existing ts id c s with
  | some existing =>
      match existing.id with
      | some existing_id =>
          if existing_id.eq_tile_group id then
            match remove cfgAuto s c with
            | (.error e, s1) => (.error e, s1)
            | (.ok _, s1) =>
                (.ok (.Removed (some (existing.entity, some existing_id))), s1)
          else (.error (.TileAlreadyExists id existing.id c.pos), s)
      | none => (.error (.TileAlreadyExists id existing.id c.pos), s)
  | none => place_unchecked ts cfgAuto id c s

/-- toggle of src/placement.rs: remove any occupant, install on an empty slot. -/
def toggle (ts : Tilesets) (cfgAuto : Bool) (id : TileId) (c : TileCoord)
    (s : WorldState) : Except TilePlacementError PlacedTile × WorldState :=
  match get_existing ts id c s with
  | some existing =>
      match remove cfgAuto s c with
      | (.error e, s1) => (.error e, s1)
      | (.ok _, s1) => (.ok (.Removed (some (existing.entity, existing.id))), s1)
  | none => place_unchecked ts cfgAuto id c s

/-- The per-slot tile data a LayerBuilder holds before the layer is live. -/
structure LayerTile where
  texture_index : Nat
deriving DecidableEq, Repr

/-- Modelled from the spec: the external LayerBuilder, holding per-position
tile data and the entities already assigned to positions, before the layer is
queryable through the normal store. -/
structure LayerBuilder where
  tiles : TilePos → Option LayerTile
  ents : TilePos → Option Nat

/-- Modelled from the spec: LayerBuilder::set_tile writes the tile data for a
position in the builder. -/
def lb_set_tile (lb : LayerBuilder) (p : TilePos) (t : LayerTile) :
    Except MapTileError Unit × LayerBuilder :=
  (.ok (), { lb with tiles := fun p2 => if p2 = p then some t else lb.tiles p2 })

/-- Modelled from the spec: LayerBuilder::get_tile_entity returns the entity
assigned to a set position, spawning one directly (not through the store) on
first request; an unset position has no entity. -/
def lb_get_tile_entity (lb : LayerBuilder) (s : WorldState) (p : TilePos) :
    Except MapTileError Nat × LayerBuilder × WorldState :=
  match lb.tiles p with
  | none => (.error .NonExistent, lb, s)
  | some _ =>
      match lb.ents p with
      | some e => (.ok e, lb, s)
      | none =>
          let e := s.nextEntity
          (.ok e,
            { lb with ents := fun p2 => if p2 = p then some e else lb.ents p2 },
            { s with nextEntity := e + 1 })

/-- add_to_layer of src/placement.rs: resolve the identity, write the tile
into the layer builder (start index plus GPUAnimated for Animated), tag the
entity with its TilesetParent, run auto-tile synchronization under the
capability, and report Added with no displaced tile. -/
def add_to_layer (ts : Tilesets) (cfgAuto : Bool) (id : TileId) (p : TilePos)
    (lb : LayerBuilder) (s : WorldState) :
    Except TilePlacementError PlacedTile × LayerBuilder × WorldState :=
  match get_tileset_id ts id with
  | .error e => (.error e, lb, s)
  | .ok tileset_id =>
      match get_tile_index ts id with
      | .error e => (.error e, lb, s)
      | .ok tile_index =>
          let entityRes : Except TilePlacementError Nat × LayerBuilder × WorldState :=
            match tile_index with
            | .Standard index =>
                match lb_set_tile lb p ⟨index % 65536⟩ with
                | (.error e, lb1) => (.error (.MapError e), lb1, s)
                | (.ok _, lb1) =>
                    match lb_get_tile_entity lb1 s p with
                    | (.error e, lb2, s2) => (.error (.MapError e), lb2, s2)
                    | (.ok entity, lb2, s2) => (.ok entity, lb2, s2)
            | .Animated start stop speed =>
                match lb_set_tile lb p ⟨start % 65536⟩ with
                | (.error e, lb1) => (.error (.MapError e), lb1, s)
                | (.ok _, lb1) =>
                    match lb_get_tile_entity lb1 s p with
                    | (.error e, lb2, s2) => (.error (.MapError e), lb2, s2)
                    | (.ok entity, lb2, s2) =>
                        (.ok entity, lb2,
                          modifyTile s2 entity (fun r =>
                            { r with animated := some (start % 4294967296, stop % 4294967296, speed) }))
          match entityRes with
          | (.error e, lb2, s2) => (.error e, lb2, s2)
          | (.ok entity, lb2, s2) =>
              let s3 := modifyTile s2 entity
                (fun r => { r with tileset_parent := some tileset_id })
              let s4 := if cfgAuto then apply_auto_tile ts id tileset_id entity s3 else s3
              (.ok (.Added none (entity, id)), lb2, s4)

/-- One public placement or removal call of the engine. -/
inductive Op where
  | opPlace (id : TileId) (c : TileCoord)
  | opTryPlace (id : TileId) (c : TileCoord)
  | opReplace (id : TileId) (c : TileCoord)
  | opToggleMatching (id : TileId) (c : TileCoord)
  | opToggle (id : TileId) (c : TileCoord)
  | opRemove (c : TileCoord)

/-- The world state after one engine call (its result discarded). -/
def exec (ts : Tilesets) (cfgAuto : Bool) : Op → WorldState → WorldState
  | .opPlace id c, s => (place ts cfgAuto id c s).2
  | .opTryPlace id c, s => (try_place ts cfgAuto id c s).2
  | .opReplace id c, s => (replace ts cfgAuto id c s).2
  | .opToggleMatching id c, s => (toggle_matching ts cfgAuto id c s).2
  | .opToggle id c, s => (toggle ts cfgAuto id c s).2
  | .opRemove c, s => (remove cfgAuto s c).2

/-- The world state after a finite sequence of engine calls. -/
def execList (ts : Tilesets) (cfgAuto : Bool) : List Op → WorldState → WorldState
  | [], s => s
  | op :: ops, s => execList ts cfgAuto ops (exec ts cfgAuto op s)

/-- At most one live entity occupies the coordinate. -/
def AtMostOne (s : WorldState) (c : TileCoord) : Prop :=
  ∀ e1 e2 r1 r2, s.tiles e1 = some r1 → s.tiles e2 = some r2 →
    coordOf r1 = c → coordOf r2 = c → e1 = e2

/-- Well-formedness of the world as the store maintains it: the chunk index
lists exactly the live tile entities at their coordinates, and the allocator
is ahead of every live entity. -/
structure Inv (s : WorldState) : Prop where
  indexed : ∀ e r, s.tiles e = some r → s.grid (coordOf r) = some e
  live : ∀ c e, s.grid c = some e → ∃ r, s.tiles e = some r ∧ coordOf r = c
  fresh : ∀ e, s.nextEntity ≤ e → s.tiles e = none

theorem Inv.atMostOne {s : WorldState} (h : Inv s) (c : TileCoord) :
    AtMostOne s c := by
  intro e1 e2 r1 r2 h1 h2 hc1 hc2
  have g1 := h.indexed e1 r1 h1
  have g2 := h.indexed e2 r2 h2
  rw [hc1] at g1
  rw [hc2] at g2
  rw [g1] at g2
  exact Option.some.inj g2

theorem inv_emptyWorld : Inv emptyWorld := by
  refine ⟨?_, ?_, ?_⟩ <;> intros <;> simp_all [emptyWorld]

theorem inv_modifyTile {s : WorldState} {e : Nat} {f : TileRec → TileRec}
    (hf : ∀ r, coordOf (f r) = coordOf r) (h : Inv s) : Inv (modifyTile s e f) := by
  refine ⟨?_, ?_, ?_⟩
  · intro e2 r h2
    simp only [modifyTile] at h2 ⊢
    by_cases he : e2 = e
    · rw [if_pos he] at h2
      obtain ⟨r0, hr0, hfr⟩ := Option.map_eq_some'.mp h2
      rw [← hfr, hf r0]
      exact h.indexed e2 r0 hr0
    · rw [if_neg he] at h2
      exact h.indexed e2 r h2
  · intro c2 e2 h2
    simp only [modifyTile] at h2 ⊢
    obtain ⟨r, hr, hcr⟩ := h.live c2 e2 h2
    by_cases he : e2 = e
    · exact ⟨f r, by rw [if_pos he, hr]; rfl, by rw [hf r]; exact hcr⟩
    · exact ⟨r, by rw [if_neg he]; exact hr, hcr⟩
  · intro e2 hge
    simp only [modifyTile] at hge ⊢
    by_cases he : e2 = e
    · rw [if_pos he, h.fresh e2 hge]; rfl
    · rw [if_neg he]
      exact h.fresh e2 hge

theorem inv_try_remove {s : WorldState} {e : Nat} (h : Inv s) :
    Inv (try_remove_auto_tile s e).2 := by
  rcases ht : s.tiles e with _ | r
  · simpa [try_remove_auto_tile, ht] using h
  · rcases ha : r.auto with _ | a
    · simpa [try_remove_auto_tile, ht, ha] using h
    · simp only [try_remove_auto_tile, ht, ha]
      exact ⟨h.indexed, h.live, h.fresh⟩

theorem inv_despawn {s : WorldState} {c : TileCoord} (h : Inv s) :
    Inv (despawn_tile s c).2 := by
  rcases hg : s.grid c with _ | e
  · simpa [despawn_tile, hg] using h
  · refine ⟨?_, ?_, ?_⟩
    · intro e2 r h2
      simp only [despawn_tile, hg] at h2 ⊢
      by_cases he : e2 = e
      · simp [he] at h2
      · rw [if_neg he] at h2
        have hidx := h.indexed e2 r h2
        by_cases hc : coordOf r = c
        · rw [hc, hg] at hidx
          exact absurd (Option.some.inj hidx).symm he
        · rw [if_neg hc]
          exact hidx
    · intro c2 e2 h2
      simp only [despawn_tile, hg] at h2 ⊢
      by_cases hc : c2 = c
      · simp [hc] at h2
      · rw [if_neg hc] at h2
        obtain ⟨r, hr, hcr⟩ := h.live c2 e2 h2
        by_cases he : e2 = e
        · exfalso
          obtain ⟨r2, hr2, hcr2⟩ := h.live c e hg
          rw [he, hr2] at hr
          exact hc (by rw [← hcr, ← Option.some.inj hr]; exact hcr2)
        · exact ⟨r, by rw [if_neg he]; exact hr, hcr⟩
    · intro e2 hge
      simp only [despawn_tile, hg] at hge ⊢
      by_cases he : e2 = e
      · rw [if_pos he]
      · rw [if_neg he]
        exact h.fresh e2 hge

theorem inv_set_tile {s : WorldState} {c : TileCoord} {t : Nat} (h : Inv s) :
    Inv (set_tile s c t).2 := by
  rcases hg : s.grid c with _ | e
  · refine ⟨?_, ?_, ?_⟩
    · intro e2 r h2
      simp only [set_tile, hg] at h2 ⊢
      by_cases he : e2 = s.nextEntity
      · rw [if_pos he] at h2
        have hr := (Option.some.inj h2).symm
        rw [hr]
        have hco : coordOf (⟨c.pos, c.map_id, c.layer_id, t, none, none, none⟩ : TileRec) = c := rfl
        rw [hco, if_pos rfl, he]
      · rw [if_neg he] at h2
        have hidx := h.indexed e2 r h2
        by_cases hc : coordOf r = c
        · rw [hc, hg] at hidx
          exact absurd hidx (by simp)
        · rw [if_neg hc]
          exact hidx
    · intro c2 e2 h2
      simp only [set_tile, hg] at h2 ⊢
      by_cases hc : c2 = c
      · rw [if_pos hc] at h2
        have he := (Option.some.inj h2).symm
        refine ⟨⟨c.pos, c.map_id, c.layer_id, t, none, none, none⟩, ?_, ?_⟩
        · rw [if_pos he]
        · rw [hc]
          rfl
      · rw [if_neg hc] at h2
        obtain ⟨r, hr, hcr⟩ := h.live c2 e2 h2
        have he : e2 ≠ s.nextEntity := by
          intro he
          rw [he, h.fresh s.nextEntity le_rfl] at hr
          exact Option.noConfusion hr
        exact ⟨r, by rw [if_neg he]; exact hr, hcr⟩
    · intro e2 hge
      simp only [set_tile, hg] at hge ⊢
      have he : e2 ≠ s.nextEntity := by omega
      rw [if_neg he]
      exact h.fresh e2 (by omega)
  · simp only [set_tile, hg]
    exact inv_modifyTile (fun r => rfl) h

theorem inv_remove {cfgAuto : Bool} {s : WorldState} {c : TileCoord} (h : Inv s) :
    Inv (remove cfgAuto s c).2 := by
  cases cfgAuto with
  | false =>
      have hd := inv_despawn (c := c) h
      rcases he : despawn_tile s c with ⟨res, s2⟩
      rw [he] at hd
      rcases res with e | u <;> · simp only [remove, Bool.false_eq_true, if_false, he]; exact hd
  | true =>
      rcases hg : s.grid c with _ | e
      · simpa [remove, get_tile_entity, hg] using h
      · have h1 : Inv (try_remove_auto_tile s e).2 := inv_try_remove h
        have hd := inv_despawn (c := c) h1
        rcases he : despawn_tile (try_remove_auto_tile s e).2 c with ⟨res, s2⟩
        rw [he] at hd
        rcases res with e2 | u <;> · simp only [remove, get_tile_entity, hg, if_true, he]; exact hd

theorem inv_apply_auto {ts : Tilesets} {id : TileId} {tid e : Nat}
    {s : WorldState} (h : Inv s) : Inv (apply_auto_tile ts id tid e s) := by
  simp only [apply_auto_tile]
  split
  · exact inv_modifyTile (fun r => rfl) h
  · exact inv_modifyTile (fun r => rfl) (inv_try_remove h)

theorem inv_apply_index (tidx : TileIndex) (e : Nat) {s : WorldState}
    (h : Inv s) : Inv (apply_index tidx e s) := by
  cases tidx <;> exact inv_modifyTile (fun r => rfl) h

theorem inv_place_install {ts : Tilesets} {cfgAuto : Bool} {id : TileId}
    {c : TileCoord} {tid : Nat} {tidx : TileIndex}
    {old : Option (Nat × Option TileId)} {s : WorldState} (h : Inv s) :
    Inv (place_install ts cfgAuto id c tid tidx old s).2 := by
  have h2 := inv_set_tile (c := c) (t := tidx.base_index % 65536) h
  rcases hs : set_tile s c (tidx.base_index % 65536) with ⟨res, s2⟩
  rw [hs] at h2
  rcases res with e | entity
  · simpa [place_install, hs] using h2
  · simp only [place_install, hs]
    have h4 := inv_modifyTile (e := entity)
      (f := fun r => { r with tileset_parent := some tid }) (fun r => rfl)
      (inv_apply_index tidx entity h2)
    cases cfgAuto with
    | false => simpa using h4
    | true => simpa using inv_apply_auto h4

theorem inv_place_unchecked {ts : Tilesets} {cfgAuto : Bool} {id : TileId}
    {c : TileCoord} {s : WorldState} (h : Inv s) :
    Inv (place_unchecked ts cfgAuto id c s).2 := by
  rcases h1 : get_tileset_id ts id with e | tid
  · simpa [place_unchecked, h1] using h
  · rcases h2 : get_tile_index ts id with e | tidx
    · simpa [place_unchecked, h1, h2] using h
    · rcases h3 : get_existing ts id c s with _ | ex
      · simp only [place_unchecked, h1, h2, h3]
        exact inv_place_install h
      · have hr : Inv (remove cfgAuto s c).2 := inv_remove h
        rcases h4 : remove cfgAuto s c with ⟨res, s1⟩
        rw [h4] at hr
        rcases res with e | u
        · simpa [place_unchecked, h1, h2, h3, h4] using hr
        · simp only [place_unchecked, h1, h2, h3, h4]
          exact inv_place_install hr

theorem inv_try_place {ts : Tilesets} {cfgAuto : Bool} {id : TileId}
    {c : TileCoord} {s : WorldState} (h : Inv s) :
    Inv (try_place ts cfgAuto id c s).2 := by
  rcases h3 : get_existing ts id c s with _ | ex
  · simpa [try_place, h3] using inv_place_unchecked h
  · simpa [try_place, h3] using h

theorem inv_replace {ts : Tilesets} {cfgAuto : Bool} {id : TileId}
    {c : TileCoord} {s : WorldState} (h : Inv s) :
    Inv (replace ts cfgAuto id c s).2 := by
  rcases h3 : get_existing ts id c s with _ | ex
  · simpa [replace, h3] using inv_place_unchecked h
  · rcases h4 : ex.id with _ | eid
    · simpa [replace, h3, h4] using inv_place_unchecked h
    · by_cases h5 : eid.eq_tile_group id = true
      · simpa [replace, h3, h4, h5] using h
      · simpa [replace, h3, h4, h5] using inv_place_unchecked h

theorem inv_toggle_matching {ts : Tilesets} {cfgAuto : Bool} {id : TileId}
    {c : TileCoord} {s : WorldState} (h : Inv s) :
    Inv (toggle_matching ts cfgAuto id c s).2 := by
  rcases h3 : get_existing ts id c s with _ | ex
  · simpa [toggle_matching, h3] using inv_place_unchecked h
  · rcases h4 : ex.id with _ | eid
    · simpa [toggle_matching, h3, h4] using h
    · by_cases h5 : eid.eq_tile_group id = true
      · have hr : Inv (remove cfgAuto s c).2 := inv_remove h
        rcases h6 : remove cfgAuto s c with ⟨res, s1⟩
        rw [h6] at hr
        rcases res with e | u <;> simpa [toggle_matching, h3, h4, h5, h6] using hr
      · simpa [toggle_matching, h3, h4, h5] using h

theorem inv_toggle {ts : Tilesets} {cfgAuto : Bool} {id : TileId}
    {c : TileCoord} {s : WorldState} (h : Inv s) :
    Inv (toggle ts cfgAuto id c s).2 := by
  rcases h3 : get_existing ts id c s with _ | ex
  · simpa [toggle, h3] using inv_place_unchecked h
  · have hr : Inv (remove cfgAuto s c).2 := inv_remove h
    rcases h6 : remove cfgAuto s c with ⟨res, s1⟩
    rw [h6] at hr
    rcases res with e | u <;> simpa [toggle, h3, h6] using hr

theorem inv_exec {ts : Tilesets} {cfgAuto : Bool} {op : Op} {s : WorldState}
    (h : Inv s) : Inv (exec ts cfgAuto op s) := by
  cases op with
  | opPlace id c => exact inv_place_unchecked h
  | opTryPlace id c => exact inv_try_place h
  | opReplace id c => exact inv_replace h
  | opToggleMatching id c => exact inv_toggle_matching h
  | opToggle id c => exact inv_toggle h
  | opRemove c => exact inv_remove h

theorem inv_execList {ts : Tilesets} {cfgAuto : Bool} {ops : List Op}
    {s : WorldState} (h : Inv s) : Inv (execList ts cfgAuto ops s) := by
  induction ops generalizing s with
  | nil => exact h
  | cons op ops ih => exact ih (inv_exec h)

/-- The component record a fresh installation leaves at the coordinate. -/
def installedRec (ts : Tilesets) (cfgAuto : Bool) (id : TileId) (c : TileCoord)
    (tileset_id : Nat) (tidx : TileIndex) : TileRec :=
  { pos := c.pos, map_id := c.map_id, layer_id := c.layer_id,
    texture_index := tidx.base_index % 65536,
    animated :=
      match tidx with
      | .Standard _ => none
      | .Animated start stop speed =>
          some (start % 4294967296, stop % 4294967296, speed),
    tileset_parent := some tileset_id,
    auto :=
      if cfgAuto && tile_is_auto ts id then some ⟨id.group_id, tileset_id⟩
      else none }

theorem remove_occupied (cfgAuto : Bool) (s : WorldState) (c : TileCoord)
    (e : Nat) (r : TileRec) (hg : s.grid c = some e) (ht : s.tiles e = some r) :
    (remove cfgAuto s c).1 = .ok () ∧
      (remove cfgAuto s c).2.nextEntity = s.nextEntity ∧
      (remove cfgAuto s c).2.grid c = none ∧
      (∀ c2, c2 ≠ c → (remove cfgAuto s c).2.grid c2 = s.grid c2) ∧
      (remove cfgAuto s c).2.tiles e = none ∧
      (∀ e2, e2 ≠ e → (remove cfgAuto s c).2.tiles e2 = s.tiles e2) ∧
      (remove cfgAuto s c).2.events = s.events ++
        (if cfgAuto then
          (match r.auto with
            | some a => [⟨e, r.pos, ⟨r.map_id, r.layer_id⟩, a⟩]
            | none => [])
          else []) := by
  cases cfgAuto <;> rcases ha : r.auto with _ | a <;>
    simp [remove, get_tile_entity, hg, try_remove_auto_tile, ht, ha,
      despawn_tile] <;>
    exact ⟨fun c2 h1 h2 => absurd h2 h1, fun e2 h1 h2 => absurd h2 h1⟩

theorem place_install_spawn (ts : Tilesets) (cfgAuto : Bool) (id : TileId)
    (c : TileCoord) (tileset_id : Nat) (tidx : TileIndex)
    (old : Option (Nat × Option TileId)) (s : WorldState)
    (hg : s.grid c = none) :
    place_install ts cfgAuto id c tileset_id tidx old s =
      (.ok (.Added old (s.nextEntity, id)),
        (place_install ts cfgAuto id c tileset_id tidx old s).2) ∧
      (place_install ts cfgAuto id c tileset_id tidx old s).2.nextEntity =
        s.nextEntity + 1 ∧
      (place_install ts cfgAuto id c tileset_id tidx old s).2.grid c =
        some s.nextEntity ∧
      (∀ c2, c2 ≠ c →
        (place_install ts cfgAuto id c tileset_id tidx old s).2.grid c2 = s.grid c2) ∧
      (place_install ts cfgAuto id c tileset_id tidx old s).2.tiles s.nextEntity =
        some (installedRec ts cfgAuto id c tileset_id tidx) ∧
      (∀ e2, e2 ≠ s.nextEntity →
        (place_install ts cfgAuto id c tileset_id tidx old s).2.tiles e2 = s.tiles e2) ∧
      (place_install ts cfgAuto id c tileset_id tidx old s).2.events = s.events := by
  cases cfgAuto <;> cases hb : tile_is_auto ts id <;> cases tidx <;>
    simp [place_install, set_tile, hg, apply_index, apply_auto_tile, hb,
      modifyTile, try_remove_auto_tile, installedRec] <;>
    exact ⟨fun c2 h1 h2 => absurd h2 h1, fun e2 h1 => by simp [h1]⟩

theorem place_install_fst (ts : Tilesets) (cfgAuto : Bool) (id : TileId)
    (c : TileCoord) (tileset_id : Nat) (tidx : TileIndex)
    (old : Option (Nat × Option TileId)) (s : WorldState) :
    (place_install ts cfgAuto id c tileset_id tidx old s).1 =
      .ok (.Added old
        ((match s.grid c with | some en => en | none => s.nextEntity), id)) := by
  rcases hg : s.grid c with _ | en <;> simp [place_install, set_tile, hg]

theorem get_tileset_id_ok (ts : Tilesets) (id : TileId) (tset : Tileset)
    (hts : ts id.tileset_id = some tset) :
    get_tileset_id ts id = .ok tset.id := by
  simp [get_tileset_id, get_tileset, get_by_id, hts]

theorem get_tile_index_ok (ts : Tilesets) (id : TileId) (tset : Tileset)
    (tidx : TileIndex) (td : TileData) (hts : ts id.tileset_id = some tset)
    (hsel : tset.select_tile_by_id id = some (tidx, td)) :
    get_tile_index ts id = .ok tidx := by
  simp [get_tile_index, get_tileset, get_by_id, hts, hsel]

theorem get_tileset_id_error_shape (ts : Tilesets) (id : TileId)
    (e : TilePlacementError) (h : get_tileset_id ts id = .error e) :
    e = .InvalidTileset id.tileset_id := by
  rcases hg : get_by_id ts id.tileset_id with _ | t <;>
    simp [get_tileset_id, get_tileset, hg] at h
  simp [h.symm]

theorem get_tile_index_error_shape (ts : Tilesets) (id : TileId)
    (e : TilePlacementError) (h : get_tile_index ts id = .error e) :
    e = .InvalidTileset id.tileset_id ∨ e = .InvalidTile id := by
  rcases hg : get_by_id ts id.tileset_id with _ | t
  · simp [get_tile_index, get_tileset, hg] at h
    exact Or.inl h.symm
  · rcases hsel : t.select_tile_by_id id with _ | p
    · simp [get_tile_index, get_tileset, hg, hsel] at h
      exact Or.inr h.symm
    · simp [get_tile_index, get_tileset, hg, hsel] at h

theorem remove_error_shape (cfgAuto : Bool) (s : WorldState) (c : TileCoord)
    (e : TilePlacementError) (h : (remove cfgAuto s c).1 = .error e) :
    ∃ m, e = .MapError m := by
  cases cfgAuto with
  | false =>
      rcases hg : s.grid c with _ | en <;>
        simp [remove, despawn_tile, hg] at h
  | true =>
      rcases hg : s.grid c with _ | en
      · simp [remove, get_tile_entity, hg] at h
        exact ⟨.NonExistent, h.symm⟩
      · rcases ht : s.tiles en with _ | r
        · simp [remove, get_tile_entity, hg, try_remove_auto_tile, ht,
            despawn_tile] at h
        · rcases ha : r.auto with _ | a <;>
            simp [remove, get_tile_entity, hg, try_remove_auto_tile, ht, ha,
              despawn_tile] at h

theorem place_never_conflict (ts : Tilesets) (cfgAuto : Bool) (id : TileId)
    (c : TileCoord) (s : WorldState) (n : TileId) (ex : Option TileId)
    (p : TilePos) :
    (place ts cfgAuto id c s).1 ≠ .error (.TileAlreadyExists n ex p) := by
  intro hcon
  rcases h1 : get_tileset_id ts id with e1 | tid
  · simp only [place, place_unchecked, h1] at hcon
    rw [get_tileset_id_error_shape ts id e1 h1] at hcon
    simp at hcon
  · rcases h2 : get_tile_index ts id with e2 | tidx
    · simp only [place, place_unchecked, h1, h2] at hcon
      rcases get_tile_index_error_shape ts id e2 h2 with h | h <;>
        rw [h] at hcon <;> simp at hcon
    · rcases h3 : get_existing ts id c s with _ | exi
      · simp only [place, place_unchecked, h1, h2, h3] at hcon
        rw [place_install_fst] at hcon
        simp at hcon
      · rcases h4 : remove cfgAuto s c with ⟨res, s1⟩
        rcases res with e4 | u
        · simp only [place, place_unchecked, h1, h2, h3, h4] at hcon
          have : (remove cfgAuto s c).1 = .error e4 := by rw [h4]
          obtain ⟨m, hm⟩ := remove_error_shape cfgAuto s c e4 this
          rw [hm] at hcon
          simp at hcon
        · simp only [place, place_unchecked, h1, h2, h3, h4] at hcon
          rw [place_install_fst] at hcon
          simp at hcon

theorem get_existing_empty (ts : Tilesets) (id : TileId) (c : TileCoord)
    (s : WorldState) (hg : s.grid c = none) : get_existing ts id c s = none := by
  simp [get_existing, hg]

theorem get_existing_occupied (ts : Tilesets) (id : TileId) (c : TileCoord)
    (s : WorldState) (e : Nat) (r : TileRec) (tset : Tileset)
    (hg : s.grid c = some e) (ht : s.tiles e = some r)
    (hts : ts id.tileset_id = some tset) :
    get_existing ts id c s =
      some ⟨e, tset.get_tile_id r.texture_index, r.texture_index,
        r.animated.isSome, r.auto.isSome⟩ := by
  simp [get_existing, hg, ht, get_by_id, hts]

theorem get_existing_occupied_unregistered (ts : Tilesets) (id : TileId)
    (c : TileCoord) (s : WorldState) (e : Nat) (r : TileRec)
    (hg : s.grid c = some e) (ht : s.tiles e = some r)
    (hts : ts id.tileset_id = none) :
    get_existing ts id c s =
      some ⟨e, none, r.texture_index, r.animated.isSome, r.auto.isSome⟩ := by
  simp [get_existing, hg, ht, get_by_id, hts]

/-- C1: for every coordinate, map and layer, and every finite sequence of
calls to place, try_place, replace, toggle_matching, toggle and remove
starting from a well-formed store state (one whose chunk index and live tile
entities agree, which in particular has at most one occupant per coordinate),
the resulting state has at most one occupant entity at that coordinate: every
installing branch removes the prior occupant before writing the new tile. -/
theorem claim_C1_at_most_one_occupant (ts : Tilesets) (cfgAuto : Bool)
    (ops : List Op) (s : WorldState) (c : TileCoord) (h : Inv s) :
    AtMostOne (execList ts cfgAuto ops s) c :=
  (inv_execList h).atMostOne c

theorem claim_C1_at_most_one_occupant_witness :
    Inv emptyWorld ∧
      AtMostOne
        (execList (fun _ => none) true
          [Op.opToggle ⟨1, 2, 3⟩ ⟨(0, 0), 0, 0⟩, Op.opRemove ⟨(0, 0), 0, 0⟩]
          emptyWorld) ⟨(0, 0), 0, 0⟩ :=
  ⟨inv_emptyWorld,
    claim_C1_at_most_one_occupant (fun _ => none) true
      [Op.opToggle ⟨1, 2, 3⟩ ⟨(0, 0), 0, 0⟩, Op.opRemove ⟨(0, 0), 0, 0⟩]
      emptyWorld ⟨(0, 0), 0, 0⟩ inv_emptyWorld⟩

/-- C2 counterexample: with the auto-tile capability present, remove on an
empty coordinate is not a success — the tile-entity lookup at the top of
remove fails and the error is propagated as MapError — refuting the claim
that remove on an empty coordinate returns Ok. -/
theorem claim_C2_counterexample :
    emptyWorld.grid ⟨(0, 0), 0, 0⟩ = none ∧
      (remove true emptyWorld ⟨(0, 0), 0, 0⟩).1 =
        .error (.MapError .NonExistent) :=
  ⟨rfl, rfl⟩

/-- C2 amended: on a coordinate with no entity, remove with the auto-tile
capability present fails with MapError (the propagated tile-entity lookup
failure) and leaves the state unchanged, while remove with the capability
absent is a no-op success; only the capability-absent configuration has
idempotent removal on empty coordinates. -/
theorem claim_C2_remove_empty (s : WorldState) (c : TileCoord)
    (h : s.grid c = none) :
    remove true s c = (.error (.MapError .NonExistent), s) ∧
      remove false s c = (.ok (), s) := by
  constructor
  · simp [remove, get_tile_entity, h]
  · simp [remove, despawn_tile, h]

theorem claim_C2_remove_empty_witness :
    emptyWorld.grid ⟨(0, 0), 0, 0⟩ = none ∧
      (remove true emptyWorld ⟨(0, 0), 0, 0⟩ =
          (.error (.MapError .NonExistent), emptyWorld) ∧
        remove false emptyWorld ⟨(0, 0), 0, 0⟩ = (.ok (), emptyWorld)) :=
  ⟨rfl, claim_C2_remove_empty emptyWorld ⟨(0, 0), 0, 0⟩ rfl⟩

/-- C4: for a valid identity B and a coordinate occupied by a tile whose
texture reverse-resolves to identity A in B's tileset, place succeeds and
returns Added with displaced = some (old entity, some A) and placed =
(new entity, B); and place never fails with TileAlreadyExists on any input. -/
theorem claim_C4_place_unconditional (ts : Tilesets) (cfgAuto : Bool)
    (A B : TileId) (c : TileCoord) (s : WorldState) (tset : Tileset)
    (e : Nat) (r : TileRec) (tidx : TileIndex) (td : TileData)
    (hts : ts B.tileset_id = some tset)
    (hsel : tset.select_tile_by_id B = some (tidx, td))
    (hg : s.grid c = some e) (ht : s.tiles e = some r)
    (hrev : tset.get_tile_id r.texture_index = some A) :
    (place ts cfgAuto B c s).1 =
        .ok (.Added (some (e, some A)) (s.nextEntity, B)) ∧
      (∀ (ts2 : Tilesets) (cfg2 : Bool) (id2 : TileId) (c2 : TileCoord)
        (s2 : WorldState) (n : TileId) (ex : Option TileId) (p : TilePos),
        (place ts2 cfg2 id2 c2 s2).1 ≠ .error (.TileAlreadyExists n ex p)) := by
  refine ⟨?_, fun ts2 cfg2 id2 c2 s2 n ex p => place_never_conflict ts2 cfg2 id2 c2 s2 n ex p⟩
  have h1 := get_tileset_id_ok ts B tset hts
  have h2 := get_tile_index_ok ts B tset tidx td hts hsel
  have hex := get_existing_occupied ts B c s e r tset hg ht hts
  rw [hrev] at hex
  have hrem := remove_occupied cfgAuto s c e r hg ht
  rcases hR : remove cfgAuto s c with ⟨res, s1⟩
  rw [hR] at hrem
  obtain ⟨hres, hnext, hgc, -⟩ := hrem
  rcases res with e4 | u
  · exact absurd hres (by simp)
  · simp only [place, place_unchecked, h1, h2, hex, hR]
    rw [place_install_fst]
    simp only at hgc hnext
    rw [hgc, hnext]

theorem claim_C4_place_unconditional_witness :
    ((fun i => if i = 5 then
        some ⟨5,
          fun tid => if tid = ⟨5, 1, 0⟩ then some (.Standard 7, ⟨false⟩) else none,
          fun tex => if tex = 9 then some ⟨5, 2, 0⟩ else none⟩
      else none : Tilesets) 5 |>.isSome) ∧
      (place
          (fun i => if i = 5 then
            some ⟨5,
              fun tid => if tid = ⟨5, 1, 0⟩ then some (.Standard 7, ⟨false⟩) else none,
              fun tex => if tex = 9 then some ⟨5, 2, 0⟩ else none⟩
          else none : Tilesets) true ⟨5, 1, 0⟩ ⟨(0, 0), 0, 0⟩
          { nextEntity := 1,
            tiles := fun e => if e = 0 then
              some ⟨(0, 0), 0, 0, 9, none, none, none⟩ else none,
            grid := fun c2 => if c2 = ⟨(0, 0), 0, 0⟩ then some 0 else none,
            events := [] }).1 =
        .ok (.Added (some (0, some ⟨5, 2, 0⟩)) (1, ⟨5, 1, 0⟩)) :=
  ⟨rfl,
    (claim_C4_place_unconditional _ true ⟨5, 2, 0⟩ ⟨5, 1, 0⟩ ⟨(0, 0), 0, 0⟩ _
      _ 0 ⟨(0, 0), 0, 0, 9, none, none, none⟩ (.Standard 7) ⟨false⟩
      rfl rfl rfl rfl rfl).1⟩

theorem place_unchecked_empty_eq (ts : Tilesets) (cfgAuto : Bool) (id : TileId)
    (c : TileCoord) (s : WorldState) (tset : Tileset) (tidx : TileIndex)
    (td : TileData) (hts : ts id.tileset_id = some tset)
    (hsel : tset.select_tile_by_id id = some (tidx, td))
    (hg : s.grid c = none) :
    place_unchecked ts cfgAuto id c s =
      place_install ts cfgAuto id c tset.id tidx none s := by
  have g1 := get_tileset_id_ok ts id tset hts
  have g2 := get_tile_index_ok ts id tset tidx td hts hsel
  have hex := get_existing_empty ts id c s hg
  simp [place_unchecked, g1, g2, hex]

theorem place_unchecked_occupied_eq (ts : Tilesets) (cfgAuto : Bool)
    (id : TileId) (c : TileCoord) (s : WorldState) (tset : Tileset)
    (tidx : TileIndex) (td : TileData) (e : Nat) (r : TileRec)
    (hts : ts id.tileset_id = some tset)
    (hsel : tset.select_tile_by_id id = some (tidx, td))
    (hg : s.grid c = some e) (ht : s.tiles e = some r) :
    place_unchecked ts cfgAuto id c s =
      place_install ts cfgAuto id c tset.id tidx
        (some (e, tset.get_tile_id r.texture_index)) (remove cfgAuto s c).2 := by
  have g1 := get_tileset_id_ok ts id tset hts
  have g2 := get_tile_index_ok ts id tset tidx td hts hsel
  have hex := get_existing_occupied ts id c s e r tset hg ht hts
  have hrem := remove_occupied cfgAuto s c e r hg ht
  rcases hR : remove cfgAuto s c with ⟨res, s1⟩
  rw [hR] at hrem
  rcases res with e4 | u
  · exact absurd hrem.1 (by simp)
  · simp [place_unchecked, g1, g2, hex, hR]

/-- C5: try_place on a coordinate occupied by any live entity — whether or not
the occupant reverse-resolves in the new identity's tileset — fails with
TileAlreadyExists carrying the new identity, the occupant's best-effort
resolved identity (or none), and the position, and leaves the state unchanged;
and after try_place(A, c) on an empty coordinate, try_place(B, c) fails with
existing = some A and the occupant remains the A-tile. -/
theorem claim_C5_try_place_occupied_fails (ts : Tilesets) (cfgAuto : Bool)
    (B : TileId) (c : TileCoord) :
    (∀ (s : WorldState) (e : Nat) (r : TileRec), s.grid c = some e →
      s.tiles e = some r →
      try_place ts cfgAuto B c s =
        (.error (.TileAlreadyExists B
          (match ts B.tileset_id with
            | some tset => tset.get_tile_id r.texture_index
            | none => none) c.pos), s)) ∧
    (∀ (A : TileId) (tsetA tsetB : Tileset) (tidxA : TileIndex) (tdA : TileData)
      (s0 : WorldState),
      ts A.tileset_id = some tsetA →
      tsetA.select_tile_by_id A = some (tidxA, tdA) →
      ts B.tileset_id = some tsetB →
      tsetB.get_tile_id (tidxA.base_index % 65536) = some A →
      s0.grid c = none →
      (try_place ts cfgAuto A c s0).1 = .ok (.Added none (s0.nextEntity, A)) ∧
        (try_place ts cfgAuto B c (try_place ts cfgAuto A c s0).2).1 =
          .error (.TileAlreadyExists B (some A) c.pos) ∧
        (try_place ts cfgAuto B c (try_place ts cfgAuto A c s0).2).2 =
          (try_place ts cfgAuto A c s0).2 ∧
        (try_place ts cfgAuto A c s0).2.grid c = some s0.nextEntity ∧
        (try_place ts cfgAuto A c s0).2.tiles s0.nextEntity =
          some (installedRec ts cfgAuto A c tsetA.id tidxA)) := by
  constructor
  · intro s e r hg ht
    rcases hts : ts B.tileset_id with _ | tset
    · have hex := get_existing_occupied_unregistered ts B c s e r hg ht hts
      simp [try_place, hex]
    · have hex := get_existing_occupied ts B c s e r tset hg ht hts
      simp [try_place, hex]
  · intro A tsetA tsetB tidxA tdA s0 h1A h2A hBts hrevB hg0
    have hexA := get_existing_empty ts A c s0 hg0
    have htpA : try_place ts cfgAuto A c s0 =
        place_install ts cfgAuto A c tsetA.id tidxA none s0 := by
      rw [try_place]
      simp only [hexA]
      exact place_unchecked_empty_eq ts cfgAuto A c s0 tsetA tidxA tdA h1A h2A hg0
    obtain ⟨hpair, hnext, hgc, hgother, htile, htother, hev⟩ :=
      place_install_spawn ts cfgAuto A c tsetA.id tidxA none s0 hg0
    rw [htpA]
    have hexB := get_existing_occupied ts B c _ s0.nextEntity
      (installedRec ts cfgAuto A c tsetA.id tidxA) tsetB hgc htile hBts
    have hrec : (installedRec ts cfgAuto A c tsetA.id tidxA).texture_index =
        tidxA.base_index % 65536 := rfl
    rw [hrec, hrevB] at hexB
    refine ⟨?_, ?_, ?_, hgc, htile⟩
    · rw [hpair]
    · simp [try_place, hexB]
    · simp [try_place, hexB]

theorem claim_C5_try_place_occupied_fails_witness :
    (({ nextEntity := 1,
        tiles := fun e => if e = 0 then
          some ⟨(2, 2), 0, 0, 9, none, none, none⟩ else none,
        grid := fun c2 => if c2 = ⟨(2, 2), 0, 0⟩ then some 0 else none,
        events := [] } : WorldState).grid ⟨(2, 2), 0, 0⟩ = some 0) ∧
      try_place (fun _ => none : Tilesets) false ⟨3, 1, 0⟩ ⟨(2, 2), 0, 0⟩
          { nextEntity := 1,
            tiles := fun e => if e = 0 then
              some ⟨(2, 2), 0, 0, 9, none, none, none⟩ else none,
            grid := fun c2 => if c2 = ⟨(2, 2), 0, 0⟩ then some 0 else none,
            events := [] } =
        (.error (.TileAlreadyExists ⟨3, 1, 0⟩ none (2, 2)),
          { nextEntity := 1,
            tiles := fun e => if e = 0 then
              some ⟨(2, 2), 0, 0, 9, none, none, none⟩ else none,
            grid := fun c2 => if c2 = ⟨(2, 2), 0, 0⟩ then some 0 else none,
            events := [] }) :=
  ⟨rfl,
    (claim_C5_try_place_occupied_fails (fun _ => none : Tilesets) false
      ⟨3, 1, 0⟩ ⟨(2, 2), 0, 0⟩).1 _ 0 ⟨(2, 2), 0, 0, 9, none, none, none⟩
      rfl rfl⟩

/-- C6: with a valid new identity, replace on a coordinate occupied by a tile
whose resolved identity is group-equal fails with TileAlreadyExists leaving
the state unchanged; on an empty coordinate it installs with no displaced
tile; and on a coordinate whose occupant does not resolve to a group-equal
identity it succeeds, displacing the occupant. -/
theorem claim_C6_replace_group_gate (ts : Tilesets) (cfgAuto : Bool)
    (id : TileId) (c : TileCoord) (tset : Tileset) (tidx : TileIndex)
    (td : TileData) (hts : ts id.tileset_id = some tset)
    (hsel : tset.select_tile_by_id id = some (tidx, td)) :
    (∀ (s : WorldState) (e : Nat) (r : TileRec) (eid : TileId),
      s.grid c = some e → s.tiles e = some r →
      tset.get_tile_id r.texture_index = some eid →
      eid.eq_tile_group id = true →
      replace ts cfgAuto id c s =
        (.error (.TileAlreadyExists id (some eid) c.pos), s)) ∧
    (∀ s : WorldState, s.grid c = none →
      (replace ts cfgAuto id c s).1 = .ok (.Added none (s.nextEntity, id))) ∧
    (∀ (s : WorldState) (e : Nat) (r : TileRec),
      s.grid c = some e → s.tiles e = some r →
      (∀ eid, tset.get_tile_id r.texture_index = some eid →
        eid.eq_tile_group id = false) →
      (replace ts cfgAuto id c s).1 =
        .ok (.Added (some (e, tset.get_tile_id r.texture_index))
          (s.nextEntity, id))) := by
  refine ⟨?_, ?_, ?_⟩
  · intro s e r eid hg ht hres heq
    have hex := get_existing_occupied ts id c s e r tset hg ht hts
    rw [hres] at hex
    simp [replace, hex, heq]
  · intro s hg
    have hex := get_existing_empty ts id c s hg
    rw [replace]
    simp only [hex]
    rw [place_unchecked_empty_eq ts cfgAuto id c s tset tidx td hts hsel hg,
      place_install_fst]
    simp [hg]
  · intro s e r hg ht hne
    have hex := get_existing_occupied ts id c s e r tset hg ht hts
    have hpu := place_unchecked_occupied_eq ts cfgAuto id c s tset tidx td e r
      hts hsel hg ht
    have hrem := remove_occupied cfgAuto s c e r hg ht
    rcases hres : tset.get_tile_id r.texture_index with _ | eid
    · rw [hres] at hex
      rw [replace]
      simp only [hex]
      rw [hpu, place_install_fst]
      simp [hrem.2.2.1, hrem.2.1, hres]
    · rw [hres] at hex
      rw [replace]
      simp only [hex, hne eid hres, Bool.false_eq_true, if_false]
      rw [hpu, place_install_fst]
      simp [hrem.2.2.1, hrem.2.1, hres]

theorem claim_C6_replace_group_gate_witness :
    ((fun i => if i = 5 then
        some ⟨5,
          fun tid => if tid.group_id = 1 then some (.Standard 7, ⟨false⟩) else none,
          fun tex => if tex = 7 then some ⟨5, 1, 0⟩ else none⟩
      else none : Tilesets) 5 |>.isSome) ∧
      replace
          (fun i => if i = 5 then
            some ⟨5,
              fun tid => if tid.group_id = 1 then some (.Standard 7, ⟨false⟩) else none,
              fun tex => if tex = 7 then some ⟨5, 1, 0⟩ else none⟩
          else none : Tilesets) false ⟨5, 1, 1⟩ ⟨(0, 0), 0, 0⟩
          { nextEntity := 1,
            tiles := fun e => if e = 0 then
              some ⟨(0, 0), 0, 0, 7, none, none, none⟩ else none,
            grid := fun c2 => if c2 = ⟨(0, 0), 0, 0⟩ then some 0 else none,
            events := [] } =
        (.error (.TileAlreadyExists ⟨5, 1, 1⟩ (some ⟨5, 1, 0⟩) (0, 0)),
          { nextEntity := 1,
            tiles := fun e => if e = 0 then
              some ⟨(0, 0), 0, 0, 7, none, none, none⟩ else none,
            grid := fun c2 => if c2 = ⟨(0, 0), 0, 0⟩ then some 0 else none,
            events := [] }) :=
  ⟨rfl,
    (claim_C6_replace_group_gate _ false ⟨5, 1, 1⟩ ⟨(0, 0), 0, 0⟩ _
      (.Standard 7) ⟨false⟩ rfl rfl).1 _ 0 ⟨(0, 0), 0, 0, 7, none, none, none⟩
      ⟨5, 1, 0⟩ rfl rfl rfl rfl⟩

/-- C7: with a valid identity A whose written texture reverse-resolves to A,
toggle on an empty coordinate installs A; a second toggle removes it and
returns Removed with displaced = some (entity, some A); a third toggle
reinstalls A, leaving the coordinate occupied by a tile with exactly the same
components as after the first call (under a fresh entity). -/
theorem claim_C7_toggle_round_trip (ts : Tilesets) (cfgAuto : Bool)
    (A : TileId) (c : TileCoord) (tset : Tileset) (tidx : TileIndex)
    (td : TileData) (s : WorldState) (hts : ts A.tileset_id = some tset)
    (hsel : tset.select_tile_by_id A = some (tidx, td))
    (hrev : tset.get_tile_id (tidx.base_index % 65536) = some A)
    (hg : s.grid c = none) :
    (toggle ts cfgAuto A c s).1 = .ok (.Added none (s.nextEntity, A)) ∧
      (toggle ts cfgAuto A c s).2.grid c = some s.nextEntity ∧
      (toggle ts cfgAuto A c s).2.tiles s.nextEntity =
        some (installedRec ts cfgAuto A c tset.id tidx) ∧
      (toggle ts cfgAuto A c (toggle ts cfgAuto A c s).2).1 =
        .ok (.Removed (some (s.nextEntity, some A))) ∧
      (toggle ts cfgAuto A c (toggle ts cfgAuto A c s).2).2.grid c = none ∧
      (toggle ts cfgAuto A c
          (toggle ts cfgAuto A c (toggle ts cfgAuto A c s).2).2).1 =
        .ok (.Added none (s.nextEntity + 1, A)) ∧
      (toggle ts cfgAuto A c
          (toggle ts cfgAuto A c (toggle ts cfgAuto A c s).2).2).2.grid c =
        some (s.nextEntity + 1) ∧
      (toggle ts cfgAuto A c
          (toggle ts cfgAuto A c (toggle ts cfgAuto A c s).2).2).2.tiles
          (s.nextEntity + 1) =
        some (installedRec ts cfgAuto A c tset.id tidx) := by
  have hexA := get_existing_empty ts A c s hg
  have htg1 : toggle ts cfgAuto A c s =
      place_install ts cfgAuto A c tset.id tidx none s := by
    rw [toggle]
    simp only [hexA]
    exact place_unchecked_empty_eq ts cfgAuto A c s tset tidx td hts hsel hg
  obtain ⟨hpair1, hnext1, hgc1, -, htile1, -, -⟩ :=
    place_install_spawn ts cfgAuto A c tset.id tidx none s hg
  have htg1a : (toggle ts cfgAuto A c s).1 = .ok (.Added none (s.nextEntity, A)) := by
    rw [htg1, hpair1]
  have htg1b : (toggle ts cfgAuto A c s).2 =
      (place_install ts cfgAuto A c tset.id tidx none s).2 := by rw [htg1]
  have hex2 := get_existing_occupied ts A c _ s.nextEntity
    (installedRec ts cfgAuto A c tset.id tidx) tset hgc1 htile1 hts
  have hrec : (installedRec ts cfgAuto A c tset.id tidx).texture_index =
      tidx.base_index % 65536 := rfl
  rw [hrec, hrev] at hex2
  have hrem2 := remove_occupied cfgAuto
    (place_install ts cfgAuto A c tset.id tidx none s).2 c s.nextEntity
    (installedRec ts cfgAuto A c tset.id tidx) hgc1 htile1
  rcases hR2 : remove cfgAuto
      (place_install ts cfgAuto A c tset.id tidx none s).2 c with ⟨res2, s2⟩
  rw [hR2] at hrem2
  obtain ⟨hok2, hnext2, hgc2, -, -, -, -⟩ := hrem2
  rcases res2 with e4 | u
  · exact absurd hok2 (by simp)
  · have htg2 : toggle ts cfgAuto A c
        (place_install ts cfgAuto A c tset.id tidx none s).2 =
        (.ok (.Removed (some (s.nextEntity, some A))), s2) := by
      rw [toggle]
      simp only [hex2, hR2]
    have hg2 : s2.grid c = none := hgc2
    have hn2 : s2.nextEntity = s.nextEntity + 1 := by
      rw [hnext2, hnext1]
    have htg3 : toggle ts cfgAuto A c s2 =
        place_install ts cfgAuto A c tset.id tidx none s2 := by
      rw [toggle]
      simp only [get_existing_empty ts A c s2 hg2]
      exact place_unchecked_empty_eq ts cfgAuto A c s2 tset tidx td hts hsel hg2
    obtain ⟨hpair3, hnext3, hgc3, -, htile3, -, -⟩ :=
      place_install_spawn ts cfgAuto A c tset.id tidx none s2 hg2
    refine ⟨htg1a, ?_, ?_, ?_, ?_, ?_, ?_, ?_⟩
    · rw [htg1b]
      exact hgc1
    · rw [htg1b]
      exact htile1
    · rw [htg1b, htg2]
    · rw [htg1b, htg2]
      exact hgc2
    · simp only [htg1b, htg2]
      show (toggle ts cfgAuto A c s2).1 = _
      rw [htg3, hpair3, hn2]
    · simp only [htg1b, htg2]
      show (toggle ts cfgAuto A c s2).2.grid c = _
      rw [htg3, hgc3, hn2]
    · simp only [htg1b, htg2]
      show (toggle ts cfgAuto A c s2).2.tiles (s.nextEntity + 1) = _
      rw [htg3, ← hn2]
      exact htile3

theorem claim_C7_toggle_round_trip_witness :
    ((fun i => if i = 5 then
        some ⟨5,
          fun tid => if tid = ⟨5, 1, 0⟩ then some (.Standard 7, ⟨true⟩) else none,
          fun tex => if tex = 7 then some ⟨5, 1, 0⟩ else none⟩
      else none : Tilesets) ((⟨5, 1, 0⟩ : TileId).tileset_id) |>.isSome) ∧
      (toggle
          (fun i => if i = 5 then
            some ⟨5,
              fun tid => if tid = ⟨5, 1, 0⟩ then some (.Standard 7, ⟨true⟩) else none,
              fun tex => if tex = 7 then some ⟨5, 1, 0⟩ else none⟩
          else none : Tilesets) true ⟨5, 1, 0⟩ ⟨(4, 4), 1, 2⟩ emptyWorld).1 =
        .ok (.Added none (0, ⟨5, 1, 0⟩)) :=
  ⟨rfl,
    (claim_C7_toggle_round_trip _ true ⟨5, 1, 0⟩ ⟨(4, 4), 1, 2⟩ _ (.Standard 7)
      ⟨true⟩ emptyWorld rfl rfl rfl rfl).1⟩

/-- C8: with the auto-tile capability present, remove on a coordinate whose
entity carries an auto-tile link succeeds, deletes the tile, and emits exactly
one removal notification populated from the entity's pre-removal position,
parent and link; remove on a coordinate whose entity carries no link succeeds,
deletes the tile, and emits no notification. -/
theorem claim_C8_detach_before_delete (s : WorldState) (c : TileCoord)
    (e : Nat) (r : TileRec) (hg : s.grid c = some e) (ht : s.tiles e = some r) :
    (∀ a, r.auto = some a →
      (remove true s c).1 = .ok () ∧
        (remove true s c).2.events =
          s.events ++ [⟨e, r.pos, ⟨r.map_id, r.layer_id⟩, a⟩] ∧
        (remove true s c).2.grid c = none ∧
        (remove true s c).2.tiles e = none) ∧
    (r.auto = none →
      (remove true s c).1 = .ok () ∧
        (remove true s c).2.events = s.events ∧
        (remove true s c).2.grid c = none ∧
        (remove true s c).2.tiles e = none) := by
  obtain ⟨hok, -, hgc, -, hte, -, hev⟩ := remove_occupied true s c e r hg ht
  constructor
  · intro a ha
    rw [ha] at hev
    exact ⟨hok, by simpa using hev, hgc, hte⟩
  · intro ha
    rw [ha] at hev
    exact ⟨hok, by simpa using hev, hgc, hte⟩

theorem claim_C8_detach_before_delete_witness :
    (({ nextEntity := 1,
        tiles := fun e => if e = 0 then
          some ⟨(3, 3), 0, 1, 4, none, none, some ⟨2, 5⟩⟩ else none,
        grid := fun c2 => if c2 = ⟨(3, 3), 0, 1⟩ then some 0 else none,
        events := [] } : WorldState).grid ⟨(3, 3), 0, 1⟩ = some 0) ∧
      (remove true
          { nextEntity := 1,
            tiles := fun e => if e = 0 then
              some ⟨(3, 3), 0, 1, 4, none, none, some ⟨2, 5⟩⟩ else none,
            grid := fun c2 => if c2 = ⟨(3, 3), 0, 1⟩ then some 0 else none,
            events := [] } ⟨(3, 3), 0, 1⟩).1 = .ok () ∧
      (remove true
          { nextEntity := 1,
            tiles := fun e => if e = 0 then
              some ⟨(3, 3), 0, 1, 4, none, none, some ⟨2, 5⟩⟩ else none,
            grid := fun c2 => if c2 = ⟨(3, 3), 0, 1⟩ then some 0 else none,
            events := [] } ⟨(3, 3), 0, 1⟩).2.events =
        [⟨0, (3, 3), ⟨0, 1⟩, ⟨2, 5⟩⟩] :=
  ⟨rfl,
    ((claim_C8_detach_before_delete _ ⟨(3, 3), 0, 1⟩ 0
        ⟨(3, 3), 0, 1, 4, none, none, some ⟨2, 5⟩⟩ rfl rfl).1 ⟨2, 5⟩ rfl).1,
    ((claim_C8_detach_before_delete _ ⟨(3, 3), 0, 1⟩ 0
        ⟨(3, 3), 0, 1, 4, none, none, some ⟨2, 5⟩⟩ rfl rfl).1 ⟨2, 5⟩ rfl).2.1⟩

theorem get_existing_dangling (ts : Tilesets) (id : TileId) (c : TileCoord)
    (s : WorldState) (e : Nat) (hg : s.grid c = some e)
    (ht : s.tiles e = none) : get_existing ts id c s = none := by
  simp [get_existing, hg, ht]

theorem place_unchecked_installs (ts : Tilesets) (cfgAuto : Bool) (id : TileId)
    (c : TileCoord) (tset : Tileset) (tidx : TileIndex) (td : TileData)
    (s : WorldState) (hts : ts id.tileset_id = some tset)
    (hsel : tset.select_tile_by_id id = some (tidx, td)) (hInv : Inv s) :
    ∃ old,
      (place_unchecked ts cfgAuto id c s).1 = .ok (.Added old (s.nextEntity, id)) ∧
        (place_unchecked ts cfgAuto id c s).2.grid c = some s.nextEntity ∧
        (place_unchecked ts cfgAuto id c s).2.tiles s.nextEntity =
          some (installedRec ts cfgAuto id c tset.id tidx) := by
  rcases hgq : s.grid c with _ | e
  · obtain ⟨hpair, -, hgc1, -, htile1, -, -⟩ :=
      place_install_spawn ts cfgAuto id c tset.id tidx none s hgq
    have hemp := place_unchecked_empty_eq ts cfgAuto id c s tset tidx td hts hsel hgq
    exact ⟨none, by rw [hemp, hpair], by rw [hemp]; exact hgc1,
      by rw [hemp]; exact htile1⟩
  · obtain ⟨r, htr, -⟩ := hInv.live c e hgq
    have hocc := place_unchecked_occupied_eq ts cfgAuto id c s tset tidx td e r
      hts hsel hgq htr
    obtain ⟨-, hnext, hgc, -, -, -, -⟩ := remove_occupied cfgAuto s c e r hgq htr
    obtain ⟨hpair, -, hgc2, -, htile2, -, -⟩ :=
      place_install_spawn ts cfgAuto id c tset.id tidx
        (some (e, tset.get_tile_id r.texture_index)) (remove cfgAuto s c).2 hgc
    refine ⟨some (e, tset.get_tile_id r.texture_index), ?_, ?_, ?_⟩
    · rw [hocc, hpair, hnext]
    · rw [hocc, hgc2, hnext]
    · rw [hocc, ← hnext]
      exact htile2

/-- C9: every successful installation on a well-formed state synchronizes the
render index and the animation component: a Standard index writes that texture
index (in-range values unchanged by the u16 cast) and the resulting occupant
carries no animation component; an Animated index writes the start index and
the occupant carries an animation component built from exactly
(start, end, speed) — so a Standard-over-Animated transition clears animation
parameters and the reverse transition attaches them. -/
theorem claim_C9_animated_transition (ts : Tilesets) (cfgAuto : Bool)
    (id : TileId) (c : TileCoord) (tset : Tileset) (td : TileData)
    (hts : ts id.tileset_id = some tset) :
    (∀ (idx : Nat) (s : WorldState), Inv s →
      tset.select_tile_by_id id = some (.Standard idx, td) → idx < 65536 →
      ∃ old r2,
        (place_unchecked ts cfgAuto id c s).1 =
            .ok (.Added old (s.nextEntity, id)) ∧
          (place_unchecked ts cfgAuto id c s).2.grid c = some s.nextEntity ∧
          (place_unchecked ts cfgAuto id c s).2.tiles s.nextEntity = some r2 ∧
          r2.texture_index = idx ∧ r2.animated = none) ∧
    (∀ (start stop speed : Nat) (s : WorldState), Inv s →
      tset.select_tile_by_id id = some (.Animated start stop speed, td) →
      start < 65536 → stop < 4294967296 →
      ∃ old r2,
        (place_unchecked ts cfgAuto id c s).1 =
            .ok (.Added old (s.nextEntity, id)) ∧
          (place_unchecked ts cfgAuto id c s).2.grid c = some s.nextEntity ∧
          (place_unchecked ts cfgAuto id c s).2.tiles s.nextEntity = some r2 ∧
          r2.texture_index = start ∧
          r2.animated = some (start, stop, speed)) := by
  constructor
  · intro idx s hInv hsel hlt
    obtain ⟨old, h1, h2, h3⟩ :=
      place_unchecked_installs ts cfgAuto id c tset (.Standard idx) td s hts hsel hInv
    refine ⟨old, installedRec ts cfgAuto id c tset.id (.Standard idx),
      h1, h2, h3, ?_, rfl⟩
    simp [installedRec, TileIndex.base_index, Nat.mod_eq_of_lt hlt]
  · intro start stop speed s hInv hsel hs hst
    obtain ⟨old, h1, h2, h3⟩ :=
      place_unchecked_installs ts cfgAuto id c tset (.Animated start stop speed)
        td s hts hsel hInv
    refine ⟨old, installedRec ts cfgAuto id c tset.id (.Animated start stop speed),
      h1, h2, h3, ?_, ?_⟩
    · simp [installedRec, TileIndex.base_index, Nat.mod_eq_of_lt hs]
    · have hs32 : start % 4294967296 = start :=
        Nat.mod_eq_of_lt (lt_trans hs (by norm_num))
      simp [installedRec, hs32, Nat.mod_eq_of_lt hst]

theorem claim_C9_animated_transition_witness :
    ((fun i => if i = 5 then
        some ⟨5,
          fun tid => if tid.group_id = 1 then some (.Animated 7 9 3, ⟨false⟩)
            else none,
          fun _ => none⟩
      else none : Tilesets) 5 |>.isSome) ∧
      (∃ old r2,
        (place_unchecked
            (fun i => if i = 5 then
              some ⟨5,
                fun tid => if tid.group_id = 1 then some (.Animated 7 9 3, ⟨false⟩)
                  else none,
                fun _ => none⟩
            else none : Tilesets) false ⟨5, 1, 0⟩ ⟨(0, 0), 0, 0⟩ emptyWorld).1 =
            .ok (.Added old (0, ⟨5, 1, 0⟩)) ∧
          (place_unchecked
            (fun i => if i = 5 then
              some ⟨5,
                fun tid => if tid.group_id = 1 then some (.Animated 7 9 3, ⟨false⟩)
                  else none,
                fun _ => none⟩
            else none : Tilesets) false ⟨5, 1, 0⟩ ⟨(0, 0), 0, 0⟩
              emptyWorld).2.grid ⟨(0, 0), 0, 0⟩ = some 0 ∧
          (place_unchecked
            (fun i => if i = 5 then
              some ⟨5,
                fun tid => if tid.group_id = 1 then some (.Animated 7 9 3, ⟨false⟩)
                  else none,
                fun _ => none⟩
            else none : Tilesets) false ⟨5, 1, 0⟩ ⟨(0, 0), 0, 0⟩
              emptyWorld).2.tiles 0 = some r2 ∧
          r2.texture_index = 7 ∧ r2.animated = some (7, 9, 3)) :=
  ⟨rfl,
    (claim_C9_animated_transition _ false ⟨5, 1, 0⟩ ⟨(0, 0), 0, 0⟩ _ ⟨false⟩
      rfl).2 7 9 3 emptyWorld inv_emptyWorld rfl (by norm_num) (by norm_num)⟩

theorem modifyTile_isSome (s : WorldState) (e : Nat) (f : TileRec → TileRec)
    (e2 : Nat) : ((modifyTile s e f).tiles e2).isSome = (s.tiles e2).isSome := by
  by_cases he : e2 = e <;> simp [modifyTile, he]

theorem try_remove_tiles_eq (s : WorldState) (e : Nat) :
    (try_remove_auto_tile s e).2.tiles = s.tiles := by
  rcases ht : s.tiles e with _ | r
  · simp [try_remove_auto_tile, ht]
  · rcases ha : r.auto with _ | a <;> simp [try_remove_auto_tile, ht, ha]

theorem apply_auto_isSome (ts : Tilesets) (id : TileId) (tid e : Nat)
    (s : WorldState) (e2 : Nat) :
    ((apply_auto_tile ts id tid e s).tiles e2).isSome = (s.tiles e2).isSome := by
  rw [apply_auto_tile]
  split
  · exact modifyTile_isSome s e _ e2
  · rw [modifyTile_isSome, try_remove_tiles_eq]

/-- C10: add_to_layer never displaces: a successful call returns Added with
old_tile = none (regardless of what the layer builder already holds at the
position), and no live tile entity of the world is removed by the call. -/
theorem claim_C10_add_to_layer_never_displaces (ts : Tilesets) (cfgAuto : Bool)
    (id : TileId) (p : TilePos) (lb : LayerBuilder) (s : WorldState) :
    (∀ pt, (add_to_layer ts cfgAuto id p lb s).1 = .ok pt →
      ∃ e2, pt = .Added none (e2, id)) ∧
    (∀ e2, (((add_to_layer ts cfgAuto id p lb s).2.2).tiles e2).isSome =
      (s.tiles e2).isSome) := by
  constructor
  · intro pt hok
    rcases h1 : get_tileset_id ts id with er | tid
    · rw [add_to_layer] at hok
      simp [h1] at hok
    · rcases h2 : get_tile_index ts id with er | tidx
      · rw [add_to_layer] at hok
        simp [h1, h2] at hok
      · rw [add_to_layer] at hok
        rcases he : lb.ents p with _ | e0 <;> cases tidx <;>
          simp [h1, h2, lb_set_tile, lb_get_tile_entity, he] at hok <;>
          first
            | exact ⟨_, hok⟩
            | exact ⟨_, hok.symm⟩
  · intro e2
    rcases h1 : get_tileset_id ts id with er | tid
    · simp [add_to_layer, h1]
    · rcases h2 : get_tile_index ts id with er | tidx
      · simp [add_to_layer, h1, h2]
      · rcases he : lb.ents p with _ | e0 <;> cases tidx <;> cases cfgAuto <;>
          simp [add_to_layer, h1, h2, lb_set_tile, lb_get_tile_entity, he,
            modifyTile_isSome, apply_auto_isSome]

theorem claim_C10_add_to_layer_never_displaces_witness :
    ((add_to_layer
        (fun i => if i = 5 then
          some ⟨5, fun _ => some (.Standard 7, ⟨false⟩), fun _ => none⟩
        else none : Tilesets) true ⟨5, 1, 0⟩ (1, 1)
        { tiles := fun _ => some ⟨3⟩, ents := fun _ => none }
        emptyWorld).1 = .ok (.Added none (0, ⟨5, 1, 0⟩))) ∧
      (∃ e2, (.Added none (0, ⟨5, 1, 0⟩) : PlacedTile) =
        .Added none (e2, ⟨5, 1, 0⟩)) ∧
      (∀ e2,
        (((add_to_layer
            (fun i => if i = 5 then
              some ⟨5, fun _ => some (.Standard 7, ⟨false⟩), fun _ => none⟩
            else none : Tilesets) true ⟨5, 1, 0⟩ (1, 1)
            { tiles := fun _ => some ⟨3⟩, ents := fun _ => none }
            emptyWorld).2.2).tiles e2).isSome = (emptyWorld.tiles e2).isSome) :=
  ⟨rfl,
    (claim_C10_add_to_layer_never_displaces
      (fun i => if i = 5 then
        some ⟨5, fun _ => some (.Standard 7, ⟨false⟩), fun _ => none⟩
      else none : Tilesets) true ⟨5, 1, 0⟩ (1, 1)
      { tiles := fun _ => some ⟨3⟩, ents := fun _ => none } emptyWorld).1
      (.Added none (0, ⟨5, 1, 0⟩)) rfl,
    (claim_C10_add_to_layer_never_displaces
      (fun i => if i = 5 then
        some ⟨5, fun _ => some (.Standard 7, ⟨false⟩), fun _ => none⟩
      else none : Tilesets) true ⟨5, 1, 0⟩ (1, 1)
      { tiles := fun _ => some ⟨3⟩, ents := fun _ => none } emptyWorld).2⟩

/-- C3 counterexample: a toggle call whose identity carries an unregistered
tileset_id, on an occupied coordinate, does not fail with InvalidTileset —
it removes the occupant, mutates the store, and returns Removed. -/
theorem claim_C3_counterexample :
    ((fun _ => none : Tilesets) ((⟨9, 1, 0⟩ : TileId).tileset_id) = none) ∧
      (({ nextEntity := 1,
          tiles := fun e => if e = 0 then
            some ⟨(0, 0), 0, 0, 3, none, none, none⟩ else none,
          grid := fun c2 => if c2 = ⟨(0, 0), 0, 0⟩ then some 0 else none,
          events := [] } : WorldState).grid ⟨(0, 0), 0, 0⟩ = some 0) ∧
      (toggle (fun _ => none : Tilesets) true ⟨9, 1, 0⟩ ⟨(0, 0), 0, 0⟩
          { nextEntity := 1,
            tiles := fun e => if e = 0 then
              some ⟨(0, 0), 0, 0, 3, none, none, none⟩ else none,
            grid := fun c2 => if c2 = ⟨(0, 0), 0, 0⟩ then some 0 else none,
            events := [] }).1 = .ok (.Removed (some (0, none))) ∧
      (toggle (fun _ => none : Tilesets) true ⟨9, 1, 0⟩ ⟨(0, 0), 0, 0⟩
          { nextEntity := 1,
            tiles := fun e => if e = 0 then
              some ⟨(0, 0), 0, 0, 3, none, none, none⟩ else none,
            grid := fun c2 => if c2 = ⟨(0, 0), 0, 0⟩ then some 0 else none,
            events := [] }).2.grid ⟨(0, 0), 0, 0⟩ = none :=
  ⟨rfl, rfl, rfl, rfl⟩

/-- C3 amended: with an unregistered tileset_id, place and replace always fail
with InvalidTileset before any store mutation; try_place, toggle_matching and
toggle do so on an empty coordinate; on an occupied coordinate try_place and
toggle_matching fail without mutation but with TileAlreadyExists (the occupant
cannot be resolved), while toggle removes the occupant and returns Removed. -/
theorem claim_C3_invalid_tileset (ts : Tilesets) (cfgAuto : Bool) (id : TileId)
    (c : TileCoord) (s : WorldState) (hts : ts id.tileset_id = none) :
    place ts cfgAuto id c s = (.error (.InvalidTileset id.tileset_id), s) ∧
      replace ts cfgAuto id c s = (.error (.InvalidTileset id.tileset_id), s) ∧
      (s.grid c = none →
        try_place ts cfgAuto id c s =
            (.error (.InvalidTileset id.tileset_id), s) ∧
          toggle_matching ts cfgAuto id c s =
            (.error (.InvalidTileset id.tileset_id), s) ∧
          toggle ts cfgAuto id c s =
            (.error (.InvalidTileset id.tileset_id), s)) ∧
      (∀ e r, s.grid c = some e → s.tiles e = some r →
        try_place ts cfgAuto id c s =
            (.error (.TileAlreadyExists id none c.pos), s) ∧
          toggle_matching ts cfgAuto id c s =
            (.error (.TileAlreadyExists id none c.pos), s) ∧
          (toggle ts cfgAuto id c s).1 = .ok (.Removed (some (e, none))) ∧
          (toggle ts cfgAuto id c s).2.grid c = none) := by
  have h1err : get_tileset_id ts id = .error (.InvalidTileset id.tileset_id) := by
    simp [get_tileset_id, get_tileset, get_by_id, hts]
  have hpuerr : place_unchecked ts cfgAuto id c s =
      (.error (.InvalidTileset id.tileset_id), s) := by
    simp [place_unchecked, h1err]
  refine ⟨by rw [place]; exact hpuerr, ?_, ?_, ?_⟩
  · rcases hg : s.grid c with _ | e
    · rw [replace]
      simp only [get_existing_empty ts id c s hg]
      exact hpuerr
    · rcases ht : s.tiles e with _ | r
      · rw [replace]
        simp only [get_existing_dangling ts id c s e hg ht]
        exact hpuerr
      · rw [replace]
        simp only [get_existing_occupied_unregistered ts id c s e r hg ht hts]
        exact hpuerr
  · intro hg
    have hex := get_existing_empty ts id c s hg
    refine ⟨?_, ?_, ?_⟩ <;> · simp only [try_place, toggle_matching, toggle, hex]; exact hpuerr
  · intro e r hg ht
    have hex := get_existing_occupied_unregistered ts id c s e r hg ht hts
    obtain ⟨hok, -, hgc, -, -, -, -⟩ := remove_occupied cfgAuto s c e r hg ht
    rcases hR : remove cfgAuto s c with ⟨res, s1⟩
    rw [hR] at hok hgc
    rcases res with e4 | u
    · exact absurd hok (by simp)
    · refine ⟨?_, ?_, ?_, ?_⟩
      · simp [try_place, hex]
      · simp [toggle_matching, hex]
      · simp [toggle, hex, hR]
      · simp only [toggle, hex, hR]
        exact hgc

theorem claim_C3_invalid_tileset_witness :
    ((fun _ => none : Tilesets) ((⟨9, 1, 0⟩ : TileId).tileset_id) = none) ∧
      place (fun _ => none : Tilesets) false ⟨9, 1, 0⟩ ⟨(0, 0), 0, 0⟩
          emptyWorld =
        (.error (.InvalidTileset 9), emptyWorld) :=
  ⟨rfl,
    (claim_C3_invalid_tileset (fun _ => none : Tilesets) false ⟨9, 1, 0⟩
      ⟨(0, 0), 0, 0⟩ emptyWorld rfl).1⟩

end BevyTilesetMap
